import Mathlib

/-!
Shallow embedding of the ARINC-429 socket driver (src/driver/arinc429.c).

The driver keeps, for every qualifying network device, a per-device list of
registered sockets (struct dev_socket_list, reached through dev->ml_priv),
and exposes a raw datagram socket endpoint (bind / sendmsg / recvmsg /
release) plus an ingress packet handler. The embedding below models each C
function over explicit state: the entry list is a list of entry addresses
(the hlist order) together with an association list from address to entry
contents (the live objects of the kmem cache), which keeps the C-level
distinction between an entry being linked in the list and the entry object
being allocated. Fallible external collaborators (allocation, memcpy,
transmit) are passed in as parameters.
-/

namespace Arinc429

/-- Modelled from the spec: the fixed word size of 4 bytes ("Word size
constant = 4 bytes", spec section 6). The constant ARINC429_WORD_SIZE itself
lives in the header arinc429.h, which is not part of src/. -/
def ARINC429_WORD_SIZE : Nat := 4

/-- Modelled from the spec: the link-layer type tag of a qualifying device
(ARPHRD_ARINC429 in the missing header arinc429.h). The driver only ever
compares it for equality, so the concrete value is immaterial. -/
def ARPHRD_ARINC429 : Nat := 280

/-- Modelled from the spec: the address-family tag (AF_ARINC429 in the missing
header). Only compared for equality. -/
def AF_ARINC429 : Nat := 44

/-- Modelled from the spec: the single defined protocol selector
(ARINC429_PROTO_RAW in the missing header; "exactly one defined value",
spec section 6). Only compared for equality. -/
def ARINC429_PROTO_RAW : Nat := 1

/-- Modelled from the spec: the size of struct sockaddr_arinc429 (a fixed-size
address structure, spec section 6). Only compared for equality with the
caller-supplied address length. -/
def sizeof_sockaddr_arinc429 : Nat := 8

/-- Numeric tag standing for the raw_ingress delivery-function pointer
(src/driver/arinc429.c:221). -/
def raw_ingress : Nat := 1

-- errno constants (linux errno values)
def EINVAL : Int := 22
def ENODEV : Int := 19
def ENOMEM : Int := 12
def ENXIO : Int := 6
def EMSGSIZE : Int := 90
def ENETDOWN : Int := 100
def ENOBUFS : Int := 105
def EAFNOSUPPORT : Int := 97
def EPROTONOSUPPORT : Int := 93

def NET_RX_SUCCESS : Nat := 0

def NET_RX_DROP : Nat := 1

def NET_XMIT_CN : Int := 2

/-- struct dev_socket_info (src/driver/arinc429.c:49): one registry entry,
carrying the owning socket and the delivery-function selector. Sockets and
delivery functions are identified by numeric tags standing for the kernel
pointers; only pointer equality is ever used on them. -/
structure DevSocketInfo where
  sk : Nat
  ingress_func : Nat
deriving DecidableEq

/-- struct dev_socket_list (src/driver/arinc429.c:55): the per-device registry.
`head` is the hlist as a list of entry addresses (head first); `heap` holds the
live entry objects of the kmem cache as an association list from address to
contents; `remove_on_zero_entries` and `entries` are the C fields. -/
structure DevSocketList where
  head : List Nat
  heap : List (Nat × DevSocketInfo)
  remove_on_zero_entries : Bool
  entries : Int
deriving DecidableEq

/-- The address kmem_cache_alloc hands out for a fresh entry: an address not
used by any live object in the heap. -/
def fresh_addr (heap : List (Nat × DevSocketInfo)) : Nat :=
  (heap.map Prod.fst).foldr max 0 + 1

/-- The loop condition of the scans in dev_register_socket and
dev_unregister_socket: does the entry object linked at address `a` carry this
(ingress_func, sk) pair. -/
def entry_matches (heap : List (Nat × DevSocketInfo)) (a f s : Nat) : Bool :=
  match List.lookup a heap with
  | some i => i.ingress_func == f && i.sk == s
  | none => false

/-- Outcome of dev_register_socket: the returned int together with the
device's ml_priv slot afterwards. `crash` marks the NULL dereference that
hlist_add_head_rcu performs when the scan cursor (which aliases the sk_info
variable) is NULL after an unsuccessful scan. -/
inductive RegisterResult where
  | ret (e : Int) (slot : Option DevSocketList)
  | crash (slot : Option DevSocketList)
deriving DecidableEq

/-- dev_register_socket (src/driver/arinc429.c:64): device-type check,
ml_priv check, entry allocation, then a scan of the existing entries. The C
reuses the single variable sk_info both for the newly allocated entry and as
the cursor of hlist_for_each_entry_rcu; consequently, on a match the
kmem_cache_free call frees the matched in-list entry (the new allocation
leaks and stays in the heap), and after a full scan without a match the
cursor is NULL, so hlist_add_head_rcu(&sk_info->node, ...) dereferences NULL
before entries++ can run. The embedding reproduces this literally. -/
def dev_register_socket (dtype : Nat) (slot : Option DevSocketList)
    (ingress_func sk : Nat) (allocOk : Bool) : RegisterResult :=
  if dtype ≠ ARPHRD_ARINC429 then .ret (-ENODEV) slot
  else
    match slot with
    | none => .ret (-ENODEV) none
    | some l =>
      if allocOk then
        let a := fresh_addr l.heap
        let heap1 := (a, ⟨sk, ingress_func⟩) :: l.heap
        match l.head.find? (fun x => entry_matches heap1 x ingress_func sk) with
        | some m => .ret 0 (some { l with heap := heap1.filter (fun p => p.1 != m) })
        | none => .crash (some { l with heap := heap1 })
      else .ret (-ENOMEM) (some l)

/-- Outcome of dev_unregister_socket: the slot afterwards, whether the list
itself was kfreed, and whether the matched entry object was freed. -/
structure UnregisterResult where
  slot : Option DevSocketList
  list_freed : Bool
  entry_freed : Bool
deriving DecidableEq

/-- dev_unregister_socket (src/driver/arinc429.c:115): device-type check,
ml_priv check, scan with break for the first (ingress_func, sk) match; if no
match, an error message and return; otherwise hlist_del_rcu, entries--, kfree
of the whole list when remove_on_zero_entries is set and the count drained to
zero or below, and finally kmem_cache_free of the matched entry. -/
def dev_unregister_socket (dtype : Nat) (slot : Option DevSocketList)
    (ingress_func sk : Nat) : UnregisterResult :=
  if dtype ≠ ARPHRD_ARINC429 then ⟨slot, false, false⟩
  else
    match slot with
    | none => ⟨none, false, false⟩
    | some l =>
      match l.head.find? (fun x => entry_matches l.heap x ingress_func sk) with
      | none => ⟨some l, false, false⟩
      | some m =>
        let l1 : DevSocketList :=
          { head := l.head.erase m
            heap := l.heap.filter (fun p => p.1 != m)
            remove_on_zero_entries := l.remove_on_zero_entries
            entries := l.entries - 1 }
        if l1.remove_on_zero_entries ∧ l1.entries ≤ 0 then ⟨none, true, true⟩
        else ⟨some l1, false, true⟩

/-- Outcome of dev_remove_socket_list: the slot afterwards (always cleared
when a list was attached), whether the list was kfreed, and — when it was not
freed — the leaked, no-longer-reachable list object. -/
structure RemoveListResult where
  slot : Option DevSocketList
  list_freed : Bool
  leaked : Option DevSocketList
deriving DecidableEq

/-- dev_remove_socket_list (src/driver/arinc429.c:168): if a list is attached,
sets remove_on_zero_entries, kfrees the list only when entries == 0, and then
clears dev->ml_priv unconditionally — also when entries were still present, in
which case the (still allocated) list is no longer reachable from the slot. -/
def dev_remove_socket_list (slot : Option DevSocketList) : RemoveListResult :=
  match slot with
  | none => ⟨none, false, none⟩
  | some l =>
    let l1 : DevSocketList := { l with remove_on_zero_entries := true }
    if l1.entries == 0 then ⟨none, true, none⟩
    else ⟨none, false, some l1⟩

/-- dev_add_socket_list (src/driver/arinc429.c:190): refuses a device that
already has a list, otherwise attaches a zero-initialised list. -/
def dev_add_socket_list (slot : Option DevSocketList) (allocOk : Bool) :
    Int × Option DevSocketList :=
  match slot with
  | some l => (-EINVAL, some l)
  | none => if allocOk then (0, some ⟨[], [], false, 0⟩) else (-ENOMEM, none)

/-- The fields of struct net_device this driver reads: interface index, device
type, the IFF_UP flag, the MTU, and the ml_priv extension slot. -/
structure NetDevice where
  ifindex : Nat
  dtype : Nat
  up : Bool
  mtu : Nat
  ml_priv : Option DevSocketList
deriving DecidableEq

/-- Outcome of arinc429_packet_ingress: the NET_RX status, the sockets a copy
of the packet was enqueued to, and whether the skb was released
(kfree_skb or consume_skb). -/
structure IngressResult where
  status : Nat
  delivered : List Nat
  skb_freed : Bool
deriving DecidableEq

/-- arinc429_packet_ingress (src/driver/arinc429.c:659): namespace check, then
a WARN_ONCE drop of packets from a wrong-type device or with a length that is
not a multiple of the word size, then an empty rcu_read_lock /
rcu_read_unlock section and consume_skb. The function never reads the
device's registry (`slot`), so `delivered` is empty on every path. -/
def arinc429_packet_ingress (dev_in_init_net : Bool) (dtype : Nat)
    (slot : Option DevSocketList) (skb_len : Nat) : IngressResult :=
  if !dev_in_init_net then ⟨NET_RX_DROP, [], true⟩
  else if dtype ≠ ARPHRD_ARINC429 ∨ skb_len % ARINC429_WORD_SIZE ≠ 0 then
    ⟨NET_RX_DROP, [], true⟩
  else ⟨NET_RX_SUCCESS, [], true⟩

/-- The sockaddr_arinc429 fields read from msg->msg_name in
proto_raw_sendmsg, together with msg_namelen. -/
structure MsgName where
  namelen : Nat
  family : Nat
  ifindex : Nat
deriving DecidableEq

/-- Outcome of proto_raw_sendmsg: the returned int, and whether the call
reached the device lookup, the skb allocation, and dev_queue_xmit. -/
structure SendResult where
  ret : Int
  looked_up_device : Bool
  allocated_skb : Bool
  called_xmit : Bool
deriving DecidableEq

/-- net_xmit_errno applied to a positive dev_queue_xmit return value. -/
def net_xmit_errno (e : Int) : Int := if e ≠ NET_XMIT_CN then -ENOBUFS else 0

/-- The interface-index selection at the top of proto_raw_sendmsg
(src/driver/arinc429.c:384): from msg->msg_name when present (validating the
name length and the family), else from the socket. -/
def resolve_ifindex (msg_name : Option MsgName) (psk_ifindex : Nat) :
    Except Int Nat :=
  match msg_name with
  | some a =>
    if a.namelen < sizeof_sockaddr_arinc429 then .error (-EINVAL)
    else if a.family ≠ AF_ARINC429 then .error (-EINVAL)
    else .ok a.ifindex
  | none => .ok psk_ifindex

/-- proto_raw_sendmsg (src/driver/arinc429.c:366): word-size check, interface
resolution, device lookup and validation (type, MTU, IFF_UP), skb allocation,
payload copy, and dev_queue_xmit; on full success it returns the payload
size. `alloc_err` and `copy_err` model the fallible sock_alloc_send_skb and
memcpy_from_msg collaborators (`none` = success); `xmit_ret` is the
dev_queue_xmit return value, mapped through net_xmit_errno when positive. -/
def proto_raw_sendmsg (net : List (Nat × NetDevice)) (psk_ifindex : Nat)
    (msg_name : Option MsgName) (size : Nat)
    (alloc_err copy_err : Option Int) (xmit_ret : Int) : SendResult :=
  if size % ARINC429_WORD_SIZE ≠ 0 then ⟨-EINVAL, false, false, false⟩
  else
    match resolve_ifindex msg_name psk_ifindex with
    | .error e => ⟨e, false, false, false⟩
    | .ok ifindex =>
      match List.lookup ifindex net with
      | none => ⟨- ENXIO, true, false, false⟩
      | some dev =>
        if dev.dtype ≠ ARPHRD_ARINC429 then ⟨-ENODEV, true, false, false⟩
        else if size > dev.mtu then ⟨-EMSGSIZE, true, false, false⟩
        else if dev.up = false then ⟨-ENETDOWN, true, false, false⟩
        else
          match alloc_err with
          | some e => ⟨e, true, false, false⟩
          | none =>
            match copy_err with
            | some e => ⟨e, true, true, false⟩
            | none =>
              let e := if xmit_ret > 0 then net_xmit_errno xmit_ret else xmit_ret
              if e ≠ 0 then ⟨e, true, true, true⟩
              else ⟨(size : Int), true, true, true⟩

/-- struct proto_raw_sock (src/driver/arinc429.c:215): the driver-private
socket fields. -/
structure ProtoRawSock where
  ifindex : Nat
  bound : Bool
deriving DecidableEq

/-- Outcome of proto_raw_bind: the returned int, the socket state, the device
table (with the bound device's registry slot updated), the error raised on
the socket's error channel (sk->sk_err), and whether sk_error_report ran.
`crash` propagates a crash of the dev_register_socket call. -/
inductive BindResult where
  | ret (e : Int) (psk : ProtoRawSock) (net : List (Nat × NetDevice))
      (sk_err : Option Int) (reported : Bool)
  | crash
deriving DecidableEq

/-- Write back a device's ml_priv slot into the device table. -/
def setDevSlot (net : List (Nat × NetDevice)) (idx : Nat)
    (s : Option DevSocketList) : List (Nat × NetDevice) :=
  net.map (fun p => if p.1 = idx then (p.1, { p.2 with ml_priv := s }) else p)

/-- proto_raw_bind (src/driver/arinc429.c:226): address-length and nonzero
ifindex checks, the already-bound-to-the-same-device no-op, device lookup and
type check, dev_register_socket (any nonzero error becomes -ENODEV), then the
socket records the bound index, and if the device is down ENETDOWN is raised
on the socket's error channel (reported unless the socket is dead) while the
call still returns 0. `sk` is the socket identity handed to the registry;
`sk_dead` models sock_flag(sk, SOCK_DEAD). -/
def proto_raw_bind (net : List (Nat × NetDevice)) (psk : ProtoRawSock)
    (sk : Nat) (sk_dead : Bool) (addr_len addr_ifindex : Nat)
    (allocOk : Bool) : BindResult :=
  if addr_len ≠ sizeof_sockaddr_arinc429 then .ret (-EINVAL) psk net none false
  else if addr_ifindex = 0 then .ret (-EINVAL) psk net none false
  else if psk.bound ∧ addr_ifindex = psk.ifindex then .ret 0 psk net none false
  else
    match List.lookup addr_ifindex net with
    | none => .ret (-ENODEV) psk net none false
    | some dev =>
      if dev.dtype ≠ ARPHRD_ARINC429 then .ret (-ENODEV) psk net none false
      else
        match dev_register_socket dev.dtype dev.ml_priv raw_ingress sk allocOk with
        | .crash _ => .crash
        | .ret e slot1 =>
          if e ≠ 0 then
            .ret (-ENODEV) psk (setDevSlot net addr_ifindex slot1) none false
          else
            if dev.up = false then
              .ret 0 ⟨dev.ifindex, true⟩ (setDevSlot net addr_ifindex slot1)
                (some ENETDOWN) (!sk_dead)
            else
              .ret 0 ⟨dev.ifindex, true⟩ (setDevSlot net addr_ifindex slot1)
                none false

/-- Outcome of arinc429_sock_create: the returned int, whether the protocol
switch was reached, and whether sk_alloc succeeded. -/
structure SockCreateResult where
  ret : Int
  examined_protocol : Bool
  allocated_sk : Bool
deriving DecidableEq

/-- arinc429_sock_create (src/driver/arinc429.c:562): sets SS_UNCONNECTED,
gates on the initial network namespace, then switches on the protocol tag and
allocates the sock; proto_raw declares no .init hook, so the init branch is
skipped for the raw protocol. -/
def arinc429_sock_create (is_init_net : Bool) (protocol : Nat)
    (allocOk : Bool) : SockCreateResult :=
  if !is_init_net then ⟨-EAFNOSUPPORT, false, false⟩
  else if protocol = ARINC429_PROTO_RAW then
    if allocOk then ⟨0, true, true⟩ else ⟨-ENOMEM, true, false⟩
  else ⟨-EPROTONOSUPPORT, true, false⟩

/-- C1: the claim says a validated inbound packet is delivered to every
Registry entry of its device (fan-out = n). The code's ingress handler
validates the packet, opens and immediately closes an empty RCU section, and
consumes the packet without reading the registry or invoking any delivery
function: on a conforming 12-byte packet arriving at a qualifying in-namespace
device whose registry holds two entries (sockets 5 and 6), the packet is
delivered to zero sockets, not two. -/
theorem c1_ingress_performs_no_fanout :
    arinc429_packet_ingress true ARPHRD_ARINC429
      (some ⟨[10, 11], [(10, ⟨5, raw_ingress⟩), (11, ⟨6, raw_ingress⟩)], false, 2⟩) 12
      = ⟨NET_RX_SUCCESS, [], true⟩ := by decide

/-- C2: the claim says destroy on a Registry with a nonzero entry count only
sets pending-removal, leaving the Registry reachable through the device's
extension slot so that the last unregister can later free it. The code sets
the flag and does not free the list, but clears dev->ml_priv unconditionally:
on a registry with one entry, destroy leaves the slot empty with the list
leaked (allocated, pending-removal, unreachable), and the subsequent
unregister of that entry finds no list through the slot and frees nothing. -/
theorem c2_destroy_orphans_registry_with_entries :
    dev_remove_socket_list (some ⟨[10], [(10, ⟨5, raw_ingress⟩)], false, 1⟩)
      = ⟨none, false, some ⟨[10], [(10, ⟨5, raw_ingress⟩)], true, 1⟩⟩
    ∧ dev_unregister_socket ARPHRD_ARINC429
        (dev_remove_socket_list (some ⟨[10], [(10, ⟨5, raw_ingress⟩)], false, 1⟩)).slot
        raw_ingress 5
      = ⟨none, false, false⟩ := by decide

/-- C3: the claim says a register call with no existing (socket, deliveryTag)
match inserts the new entry at the head, increments the counter, and returns
success. In the code the scan cursor aliases the new-entry variable, so after
a non-matching scan (here: the empty registry of a qualifying device) the
cursor is NULL and hlist_add_head_rcu dereferences NULL: the call crashes with
the allocated entry (address 1) leaked in the cache, nothing inserted and the
counter untouched. -/
theorem c3_fresh_register_crashes :
    dev_register_socket ARPHRD_ARINC429 (some ⟨[], [], false, 0⟩) raw_ingress 5 true
      = .crash (some ⟨[], [(1, ⟨5, raw_ingress⟩)], false, 0⟩) := by decide

/-- C4: the claim says a duplicate register discards the newly allocated entry
and leaves the existing entry and the collection unchanged. In the code the
scan cursor aliases the new-entry variable, so on a match kmem_cache_free
frees the matched in-list entry instead: starting from a registry whose list
links the entry object at address 7, the call returns success with the count
unchanged, but afterwards the list still links address 7 whose object is gone
(a dangling node) while the new allocation (address 8) leaks unlinked. -/
theorem c4_duplicate_register_corrupts_list :
    dev_register_socket ARPHRD_ARINC429
      (some ⟨[7], [(7, ⟨5, raw_ingress⟩)], false, 1⟩) raw_ingress 5 true
      = .ret 0 (some ⟨[7], [(8, ⟨5, raw_ingress⟩)], false, 1⟩) := by decide

/-- C5: an inbound packet whose length is not a multiple of the word size is
dropped by the ingress handler — NET_RX_DROP is returned, the buffer is
freed, and no socket receives a copy — even on a qualifying in-namespace
device with registered sockets. -/
theorem c5_nonconform_ingress_dropped (slot : Option DevSocketList) (len : Nat)
    (h : len % ARINC429_WORD_SIZE ≠ 0) :
    arinc429_packet_ingress true ARPHRD_ARINC429 slot len
      = ⟨NET_RX_DROP, [], true⟩ := by
  unfold arinc429_packet_ingress
  rw [if_neg (by simp), if_pos (Or.inr h)]

/-- C5 witness: a 6-byte packet on a qualifying device with one registered
socket is dropped and delivered to nobody. -/
theorem c5_nonconform_ingress_dropped_witness :
    arinc429_packet_ingress true ARPHRD_ARINC429
      (some ⟨[10], [(10, ⟨5, raw_ingress⟩)], false, 1⟩) 6
      = ⟨NET_RX_DROP, [], true⟩ :=
  c5_nonconform_ingress_dropped
    (some ⟨[10], [(10, ⟨5, raw_ingress⟩)], false, 1⟩) 6 (by decide)

/-- C6 counterexample: the claim says every payload length that is not a
positive multiple of 4 — including zero — fails with InvalidArgument before
any device lookup, allocation or transmit. A zero-length payload passes the
`size % 4` check (0 is a multiple of 4): on an up qualifying device the send
proceeds through lookup, allocation and transmit and returns 0, not -EINVAL. -/
theorem c6_zero_length_send_not_rejected :
    (proto_raw_sendmsg [(1, ⟨1, ARPHRD_ARINC429, true, 32, some ⟨[], [], false, 0⟩⟩)]
        1 none 0 none none 0).ret ≠ -EINVAL
    ∧ proto_raw_sendmsg [(1, ⟨1, ARPHRD_ARINC429, true, 32, some ⟨[], [], false, 0⟩⟩)]
        1 none 0 none none 0
      = ⟨0, true, true, true⟩ := by decide

/-- C6 (amended): a send whose payload length is not a multiple of the word
size (such a length is necessarily nonzero) fails with -EINVAL before the
device lookup, the buffer allocation and the transmit call; a zero-length
payload is not rejected by this check. -/
theorem c6_nonaligned_send_einval (net : List (Nat × NetDevice))
    (psk_ifindex : Nat) (msg_name : Option MsgName) (size : Nat)
    (alloc_err copy_err : Option Int) (xmit_ret : Int)
    (h : size % ARINC429_WORD_SIZE ≠ 0) :
    proto_raw_sendmsg net psk_ifindex msg_name size alloc_err copy_err xmit_ret
      = ⟨-EINVAL, false, false, false⟩ := by
  unfold proto_raw_sendmsg
  rw [if_pos h]

/-- C6 witness: a 6-byte send fails with -EINVAL having touched nothing. -/
theorem c6_nonaligned_send_einval_witness :
    proto_raw_sendmsg [] 0 none 6 none none 0 = ⟨-EINVAL, false, false, false⟩ :=
  c6_nonaligned_send_einval [] 0 none 6 none none 0 (by decide)

/-- C7: for a word-aligned send resolving to a qualifying, administratively up
device, a payload larger than the MTU fails with -EMSGSIZE, while a payload
at most the MTU — with the allocation, copy and transmit collaborators
accepting — returns exactly the payload length. -/
theorem c7_send_mtu_boundary (net : List (Nat × NetDevice)) (psk_ifindex : Nat)
    (msg_name : Option MsgName) (size ifx : Nat) (dev : NetDevice)
    (hsz : size % ARINC429_WORD_SIZE = 0)
    (hres : resolve_ifindex msg_name psk_ifindex = .ok ifx)
    (hdev : List.lookup ifx net = some dev)
    (hty : dev.dtype = ARPHRD_ARINC429)
    (hup : dev.up = true) :
    (size > dev.mtu →
      proto_raw_sendmsg net psk_ifindex msg_name size none none 0
        = ⟨-EMSGSIZE, true, false, false⟩)
    ∧ (size ≤ dev.mtu →
      proto_raw_sendmsg net psk_ifindex msg_name size none none 0
        = ⟨(size : Int), true, true, true⟩) := by
  unfold proto_raw_sendmsg
  rw [if_neg (by simp [hsz]), hres]
  simp only [hdev, hty, hup]
  constructor
  · intro hgt
    simp [hgt]
  · intro hle
    simp [Nat.not_lt.mpr hle]

/-- C7 witness: on a device with MTU 32, a 32-byte send returns 32 and a
36-byte send fails with -EMSGSIZE. -/
theorem c7_send_mtu_boundary_witness :
    proto_raw_sendmsg [(1, ⟨1, ARPHRD_ARINC429, true, 32, some ⟨[], [], false, 0⟩⟩)]
      1 none 32 none none 0 = ⟨32, true, true, true⟩
    ∧ proto_raw_sendmsg [(1, ⟨1, ARPHRD_ARINC429, true, 32, some ⟨[], [], false, 0⟩⟩)]
      1 none 36 none none 0 = ⟨-EMSGSIZE, true, false, false⟩ := by
  constructor
  · exact (c7_send_mtu_boundary
      [(1, ⟨1, ARPHRD_ARINC429, true, 32, some ⟨[], [], false, 0⟩⟩)] 1 none 32 1
      ⟨1, ARPHRD_ARINC429, true, 32, some ⟨[], [], false, 0⟩⟩
      (by decide) rfl (by decide) (by decide) (by decide)).2 (by decide)
  · exact (c7_send_mtu_boundary
      [(1, ⟨1, ARPHRD_ARINC429, true, 32, some ⟨[], [], false, 0⟩⟩)] 1 none 36 1
      ⟨1, ARPHRD_ARINC429, true, 32, some ⟨[], [], false, 0⟩⟩
      (by decide) rfl (by decide) (by decide) (by decide)).1 (by decide)

/-- C8 counterexample: the claim says a socket bound to device A is never left
bound to a different device B by a bind call. The code only short-circuits a
re-bind to the same device; binding a socket currently bound to device 1 to a
qualifying device 2 (whose registry already holds the matching entry, so the
register call returns success) returns 0 and leaves the socket bound to
device 2. -/
theorem c8_rebind_to_other_device_succeeds :
    proto_raw_bind
      [(2, ⟨2, ARPHRD_ARINC429, true, 32, some ⟨[10], [(10, ⟨5, raw_ingress⟩)], false, 1⟩⟩)]
      ⟨1, true⟩ 5 false sizeof_sockaddr_arinc429 2 true
      = .ret 0 ⟨2, true⟩
          [(2, ⟨2, ARPHRD_ARINC429, true, 32, some ⟨[10], [(11, ⟨5, raw_ingress⟩)], false, 1⟩⟩)]
          none false := by decide

/-- C8 (amended): a bind call naming a device index different from the one
the socket is bound to is not rejected: the code proceeds to look the device
up, and when the device qualifies, is up, and the registration call returns
success, the bind returns 0 and records the new device index in the socket —
the old binding is simply overwritten (and the old registry entry is not
removed). Rebinding does not require release and recreation. -/
theorem c8_bind_other_device_not_rejected (net : List (Nat × NetDevice))
    (psk : ProtoRawSock) (sk : Nat) (sk_dead : Bool) (aifx : Nat)
    (dev : NetDevice) (slot1 : Option DevSocketList)
    (h0 : aifx ≠ 0) (hne : aifx ≠ psk.ifindex)
    (hdev : List.lookup aifx net = some dev)
    (hty : dev.dtype = ARPHRD_ARINC429)
    (hreg : dev_register_socket dev.dtype dev.ml_priv raw_ingress sk true = .ret 0 slot1)
    (hup : dev.up = true) :
    proto_raw_bind net psk sk sk_dead sizeof_sockaddr_arinc429 aifx true
      = .ret 0 ⟨dev.ifindex, true⟩ (setDevSlot net aifx slot1) none false := by
  unfold proto_raw_bind
  rw [if_neg (fun hc => hc rfl), if_neg h0, if_neg (fun hc => hne hc.2)]
  simp only [hdev]
  rw [if_neg (by simp [hty])]
  simp only [hreg]
  simp [hup]

/-- C8 witness (for the amended statement): the socket bound to device 1 ends
bound to device 2 after bind names index 2. -/
theorem c8_bind_other_device_not_rejected_witness :
    proto_raw_bind
      [(2, ⟨2, ARPHRD_ARINC429, true, 32, some ⟨[10], [(10, ⟨5, raw_ingress⟩)], false, 1⟩⟩)]
      ⟨1, true⟩ 5 false sizeof_sockaddr_arinc429 2 true
      = .ret 0 ⟨2, true⟩
          (setDevSlot
            [(2, ⟨2, ARPHRD_ARINC429, true, 32, some ⟨[10], [(10, ⟨5, raw_ingress⟩)], false, 1⟩⟩)]
            2 (some ⟨[10], [(11, ⟨5, raw_ingress⟩)], false, 1⟩))
          none false :=
  c8_bind_other_device_not_rejected
    [(2, ⟨2, ARPHRD_ARINC429, true, 32, some ⟨[10], [(10, ⟨5, raw_ingress⟩)], false, 1⟩⟩)]
    ⟨1, true⟩ 5 false 2
    ⟨2, ARPHRD_ARINC429, true, 32, some ⟨[10], [(10, ⟨5, raw_ingress⟩)], false, 1⟩⟩
    (some ⟨[10], [(11, ⟨5, raw_ingress⟩)], false, 1⟩)
    (by decide) (by decide) (by decide) (by decide) (by decide) (by decide)

/-- C9: a bind to a resolvable qualifying device that is administratively
down, with the registration call returning success, itself returns 0 and
leaves the socket bound; the down condition is raised asynchronously as
ENETDOWN on the socket's error channel, with sk_error_report invoked exactly
when the socket is not dead. -/
theorem c9_bind_down_device_async_error (net : List (Nat × NetDevice))
    (psk : ProtoRawSock) (sk : Nat) (sk_dead : Bool) (aifx : Nat)
    (dev : NetDevice) (slot1 : Option DevSocketList)
    (h0 : aifx ≠ 0)
    (hni : ¬(psk.bound = true ∧ aifx = psk.ifindex))
    (hdev : List.lookup aifx net = some dev)
    (hty : dev.dtype = ARPHRD_ARINC429)
    (hreg : dev_register_socket dev.dtype dev.ml_priv raw_ingress sk true = .ret 0 slot1)
    (hdown : dev.up = false) :
    proto_raw_bind net psk sk sk_dead sizeof_sockaddr_arinc429 aifx true
      = .ret 0 ⟨dev.ifindex, true⟩ (setDevSlot net aifx slot1)
          (some ENETDOWN) (!sk_dead) := by
  unfold proto_raw_bind
  rw [if_neg (fun hc => hc rfl), if_neg h0, if_neg hni]
  simp only [hdev]
  rw [if_neg (by simp [hty])]
  simp only [hreg]
  simp [hdown]

/-- C9 witness: binding an unbound socket to a down qualifying device returns
0, binds the socket, and raises ENETDOWN with the error reported. -/
theorem c9_bind_down_device_async_error_witness :
    proto_raw_bind
      [(2, ⟨2, ARPHRD_ARINC429, false, 32, some ⟨[10], [(10, ⟨5, raw_ingress⟩)], false, 1⟩⟩)]
      ⟨0, false⟩ 5 false sizeof_sockaddr_arinc429 2 true
      = .ret 0 ⟨2, true⟩
          [(2, ⟨2, ARPHRD_ARINC429, false, 32, some ⟨[10], [(11, ⟨5, raw_ingress⟩)], false, 1⟩⟩)]
          (some ENETDOWN) true := by
  rw [c9_bind_down_device_async_error
    [(2, ⟨2, ARPHRD_ARINC429, false, 32, some ⟨[10], [(10, ⟨5, raw_ingress⟩)], false, 1⟩⟩)]
    ⟨0, false⟩ 5 false 2
    ⟨2, ARPHRD_ARINC429, false, 32, some ⟨[10], [(10, ⟨5, raw_ingress⟩)], false, 1⟩⟩
    (some ⟨[10], [(11, ⟨5, raw_ingress⟩)], false, 1⟩)
    (by decide) (by decide) (by decide) (by decide) (by decide) (by decide)]
  decide

/-- C10: a socket-creation request from a network namespace other than the
initial one fails with -EAFNOSUPPORT before the protocol tag is examined and
before any sock is allocated, whatever the protocol tag. -/
theorem c10_foreign_namespace_create_rejected (protocol : Nat) (allocOk : Bool) :
    arinc429_sock_create false protocol allocOk
      = ⟨-EAFNOSUPPORT, false, false⟩ := rfl

end Arinc429
